import Mathlib

/- Shallow embedding of the rule-based risk scoring and recommendation engine of the
   repository: RuleBasedDecisionEngine (src/src/models/decision_engine/rules_engine.py)
   and RetentionEngine (src/src/models/decision_engine/retention_engine.py).
   Numeric cells are modelled as rationals. The churn cell may hold a non-string value,
   on which the call to .lower() in the source raises; this is modelled with FieldVal.
   Wall-clock timestamps are modelled by passing the current time string as an explicit
   argument named now. -/

/-- A cell of a customer row: the churn_risk_level column may hold a number, in which
case churn_risk.lower() in _calculate_risk_factors raises AttributeError and
analyze_customer_risk takes its except branch. -/
inductive FieldVal where
  | num : ℚ → FieldVal
  | str : String → FieldVal
deriving DecidableEq

/-- One row of customer data, read by both engines with .get and a default.
A field equal to none is absent from the row. -/
structure CustomerRecord where
  customer_id : Option String
  name : Option String
  current_health_score : Option ℚ
  churn_risk_level : Option FieldVal
  engagement_score : Option ℚ
  days_since_last_engagement : Option ℚ
  segment : Option String
  subscription_plan : Option String
  support_tickets_30d : Option ℚ
  nps_score : Option ℚ
  revenue_growth_90d : Option ℚ
  total_lifetime_revenue : Option ℚ
deriving DecidableEq

/-- Python str.lower on one ASCII character (the labels in this code are all ASCII). -/
def lowerChar (c : Char) : Char :=
  if 65 ≤ c.toNat ∧ c.toNat ≤ 90 then Char.ofNat (c.toNat + 32) else c

/-- Python str.lower, as called on the churn label by _calculate_risk_factors. -/
def lowerStr (s : String) : String := String.mk (s.data.map lowerChar)

namespace Rules

/-- The health_score_rules table of _initialize_rules: the first bucket of the dict
(insertion order critical, low, medium, high) with min ≤ h < max wins; none models the
case that no bucket matched, so that no health_score key is put into the factors dict. -/
def healthScoreWeight (h : ℚ) : Option ℚ :=
  if 0 ≤ h ∧ h < 30 then some (3/10)
  else if 30 ≤ h ∧ h < 50 then some (2/10)
  else if 50 ≤ h ∧ h < 70 then some (1/10)
  else if 70 ≤ h ∧ h < 100 then some 0
  else none

/-- The engagement_rules table: buckets low, medium, high. -/
def engagementWeight (e : ℚ) : Option ℚ :=
  if 0 ≤ e ∧ e < 3/10 then some (2/10)
  else if 3/10 ≤ e ∧ e < 7/10 then some (1/10)
  else if 7/10 ≤ e ∧ e < 1 then some 0
  else none

/-- churn_risk_rules.get(churn_risk.lower(), empty).get(weight, 0.0). -/
def churnRiskWeight (churn : String) : ℚ :=
  if lowerStr churn = "high" then 2/5
  else if lowerStr churn = "medium" then 1/5
  else if lowerStr churn = "low" then 0
  else 0

/-- The days-since-engagement branch of _calculate_risk_factors. -/
def daysWeight (d : ℚ) : ℚ :=
  if d ≥ 60 then 1/10 else if d ≥ 30 then 1/20 else 0

/-- The risk_factors dict built by _calculate_risk_factors; the health_score and
engagement keys are absent (none) when no bucket matched the value. -/
structure RiskFactors where
  health_score : Option ℚ
  engagement : Option ℚ
  churn_risk : ℚ
  days_since_engagement : ℚ
deriving DecidableEq

def calcRiskFactors (h : ℚ) (churn : String) (e : ℚ) (d : ℚ) : RiskFactors :=
  ⟨healthScoreWeight h, engagementWeight e, churnRiskWeight churn, daysWeight d⟩

/-- sum(risk_factors.values()): an absent key contributes nothing. -/
def RiskFactors.total (f : RiskFactors) : ℚ :=
  f.health_score.getD 0 + f.engagement.getD 0 + f.churn_risk + f.days_since_engagement

/-- _determine_risk_level with the thresholds of _initialize_thresholds. -/
def determineRiskLevel (s : ℚ) : String :=
  if s ≥ 7/10 then "Critical"
  else if s ≥ 1/2 then "High"
  else if s ≥ 3/10 then "Medium"
  else "Low"

/-- _calculate_confidence. -/
def calcConfidence (f : RiskFactors) : String :=
  if f.total ≥ 4/5 then "High" else if f.total ≥ 1/2 then "Medium" else "Low"

/-- The return dict of analyze_customer_risk. risk_factors is none for the empty dict
of the except branch; analysis_timestamp and error model the keys that are present on
only one of the two branches. -/
structure RiskAnalysis where
  risk_level : String
  composite_risk_score : ℚ
  risk_factors : Option RiskFactors
  confidence : String
  analysis_timestamp : Option String
  error : Option String
deriving DecidableEq

/-- True when the churn cell holds a number, so that churn_risk.lower() raises. -/
def churnFails (c : CustomerRecord) : Bool :=
  match c.churn_risk_level with
  | some (FieldVal.num _) => true
  | _ => false

/-- customer_data.get(churn_risk_level, Medium) as the string handed to .lower(). -/
def churnString (c : CustomerRecord) : String :=
  match c.churn_risk_level with
  | some (FieldVal.str s) => s
  | _ => "Medium"

/-- str(e) of the AttributeError raised by .lower() on a numeric cell. -/
def lowerAttrMsg : String := "object has no attribute lower"

/-- analyze_customer_risk: defaults 50, Medium, 0.5, 30; on an internal exception the
except branch returns the Unknown result with score 0.0, empty factors and Low
confidence. -/
def analyze_customer_risk (now : String) (c : CustomerRecord) : RiskAnalysis :=
  if churnFails c then
    ⟨"Unknown", 0, none, "Low", none, some lowerAttrMsg⟩
  else
    let f := calcRiskFactors (c.current_health_score.getD 50) (churnString c)
      (c.engagement_score.getD (1/2)) (c.days_since_last_engagement.getD 30)
    ⟨determineRiskLevel f.total, f.total, some f, calcConfidence f, some now, none⟩

/-- The three lists returned by _get_risk_based_recommendations. -/
structure RecLists where
  recommended_actions : List String
  resources_required : List String
  success_metrics : List String
deriving DecidableEq

def getRiskBasedRecommendations (risk_level : String) (risk_score : ℚ) : RecLists :=
  if risk_level = "Critical" then
    ⟨["Immediate executive escalation",
      "Personal retention call within 24 hours",
      "Custom retention offer with significant discount",
      "Assign dedicated customer success manager"],
     ["Senior Customer Success Manager", "Executive sponsor", "Retention specialist",
      "Marketing team for campaigns"],
     ["Retention rate improvement", "Customer satisfaction score", "Revenue recovery"]⟩
  else if risk_level = "High" then
    ⟨["Schedule retention call within 48 hours", "Provide personalized retention offer",
      "Assign dedicated account manager", "Monitor engagement metrics daily"],
     ["Customer Success Manager", "Retention specialist", "Account manager"],
     ["Engagement score improvement", "Health score increase", "Retention probability"]⟩
  else
    ⟨["Regular check-in calls", "Proactive support outreach", "Value demonstration sessions"],
     ["Customer Success Manager"],
     ["Customer satisfaction", "Engagement metrics"]⟩

/-- _get_customer_specific_recommendations: segment and subscription plan extras. -/
def getCustomerSpecificRecommendations (c : CustomerRecord) : List String :=
  let seg := c.segment.getD "SMB"
  let segRecs :=
    if seg = "High-Value" then ["Executive relationship building", "Premium support access"]
    else if seg = "Medium-Value" then ["Regular business reviews", "Feature adoption training"]
    else ["Self-service resources", "Community engagement"]
  let plan := c.subscription_plan.getD "Basic"
  let planRecs :=
    if plan = "Premium" ∨ plan = "Enterprise" then
      ["Advanced feature training", "API integration support"]
    else []
  segRecs ++ planRecs

/-- _determine_priority: the priority is a function of risk_level alone; the risk_score
argument is accepted but never read, and no revenue or segment override exists here. -/
def determinePriority (risk_level : String) (risk_score : ℚ) : String :=
  if risk_level = "Critical" ∨ risk_level = "High" then
    (if risk_level = "Critical" then "Critical" else "High")
  else if risk_level = "Medium" then "Medium"
  else "Low"

def determineTimeline (risk_level : String) : String :=
  if risk_level = "Critical" then "Immediate (24-48 hours)"
  else if risk_level = "High" then "Urgent (1-2 weeks)"
  else if risk_level = "Medium" then "Standard (2-4 weeks)"
  else "Routine (1-2 months)"

def predictOutcome (risk_level : String) (risk_score : ℚ) : String :=
  if risk_level = "Low" then "High retention probability"
  else if risk_level = "Medium" then "Moderate retention probability"
  else if risk_level = "High" then "Low retention probability"
  else "Very low retention probability"

/-- The return dict of generate_recommendations. -/
structure Recommendations where
  priority : String
  timeline : String
  expected_outcome : String
  recommended_actions : List String
  resources_required : List String
  success_metrics : List String
deriving DecidableEq

def generate_recommendations (ra : RiskAnalysis) (c : CustomerRecord) : Recommendations :=
  let recs := getRiskBasedRecommendations ra.risk_level ra.composite_risk_score
  ⟨determinePriority ra.risk_level ra.composite_risk_score,
   determineTimeline ra.risk_level,
   predictOutcome ra.risk_level ra.composite_risk_score,
   recs.recommended_actions ++ getCustomerSpecificRecommendations c,
   recs.resources_required,
   recs.success_metrics⟩

/-- Python format idx with 04d, used for the CUST_ default id. -/
def fmt4 (n : ℕ) : String :=
  let s := toString n
  if s.length < 4 then String.mk (List.replicate (4 - s.length) '0') ++ s else s

/-- One result record of process_customer_batch; note that it carries no timestamp. -/
structure BatchRow where
  customer_id : String
  name : String
  risk_level : String
  risk_score : ℚ
  health_score : ℚ
  churn_risk : FieldVal
  engagement_score : ℚ
  priority : String
  timeline : String
  recommended_actions_count : ℕ
deriving DecidableEq

def processCustomer (now : String) (idx : ℕ) (c : CustomerRecord) : BatchRow :=
  let ra := analyze_customer_risk now c
  let recs := generate_recommendations ra c
  ⟨c.customer_id.getD ("CUST_" ++ fmt4 idx),
   c.name.getD ("Customer " ++ toString idx),
   ra.risk_level, ra.composite_risk_score,
   c.current_health_score.getD 0,
   c.churn_risk_level.getD (FieldVal.str "Unknown"),
   c.engagement_score.getD 0,
   recs.priority, recs.timeline, recs.recommended_actions.length⟩

/-- The iterrows loop of process_customer_batch with the positional RangeIndex. -/
def processBatchAux (now : String) : ℕ → List CustomerRecord → List BatchRow
  | _, [] => []
  | idx, c :: rest => processCustomer now idx c :: processBatchAux now (idx + 1) rest

def process_customer_batch (now : String) (l : List CustomerRecord) : List BatchRow :=
  processBatchAux now 0 l

def countRisk (rows : List BatchRow) (lvl : String) : ℕ :=
  (rows.filter (fun r => r.risk_level == lvl)).length

def countPriority (rows : List BatchRow) (p : String) : ℕ :=
  (rows.filter (fun r => r.priority == p)).length

def highRiskCount (rows : List BatchRow) : ℕ :=
  (rows.filter (fun r => r.risk_level == "High" || r.risk_level == "Critical")).length

def meanRiskScore (rows : List BatchRow) : ℚ :=
  (rows.map BatchRow.risk_score).sum / (rows.length : ℚ)

/-- _generate_insights over the result rows. -/
def generateInsights (rows : List BatchRow) : List String :=
  (if highRiskCount rows > 0 then
      [toString (highRiskCount rows) ++ " customers require immediate attention"]
   else [])
  ++ (if meanRiskScore rows > 1/2 then
      ["Overall customer health is concerning - consider proactive retention strategies"]
    else if meanRiskScore rows < 3/10 then
      ["Customer health is generally good - focus on growth and expansion"]
    else [])
  ++ (if countPriority rows "Critical" > 0 then
      [toString (countPriority rows "Critical") ++ " customers need critical priority intervention"]
   else [])

/-- The summary dict of get_decision_summary on a nonempty result set; value_counts is
modelled by the multiplicity functions countRisk and countPriority. -/
structure DecisionSummary where
  total_customers : ℕ
  high_risk_customers : ℕ
  critical_priority_customers : ℕ
  average_risk_score : ℚ
  risk_distribution : String → ℕ
  priority_distribution : String → ℕ
  insights : List String

/-- get_decision_summary returns either the error dict or the summary dict. -/
inductive SummaryResult where
  | err : String → SummaryResult
  | ok : DecisionSummary → SummaryResult

def get_decision_summary (rows : List BatchRow) : SummaryResult :=
  if rows.isEmpty then SummaryResult.err "No results to summarize"
  else SummaryResult.ok
    ⟨rows.length, highRiskCount rows, countPriority rows "Critical", meanRiskScore rows,
     countRisk rows, countPriority rows, generateInsights rows⟩

/-- The insights carried by a summary result; the error dict carries none. -/
def SummaryResult.insightsOf : SummaryResult → List String
  | SummaryResult.err _ => []
  | SummaryResult.ok s => s.insights

/-- Drop the analysis_timestamp key, to state time independence of everything else. -/
def RiskAnalysis.eraseTime (ra : RiskAnalysis) : RiskAnalysis :=
  ⟨ra.risk_level, ra.composite_risk_score, ra.risk_factors, ra.confidence, none, ra.error⟩

end Rules

namespace Retention

/-- health_score_rules of the retention engine (weights 0.4, 0.3, 0.2, 0.0). -/
def healthScoreWeight (h : ℚ) : Option ℚ :=
  if 0 ≤ h ∧ h < 30 then some (2/5)
  else if 30 ≤ h ∧ h < 50 then some (3/10)
  else if 50 ≤ h ∧ h < 70 then some (1/5)
  else if 70 ≤ h ∧ h < 100 then some 0
  else none

/-- engagement_rules of the retention engine (weights 0.3, 0.1, 0.0). -/
def engagementWeight (e : ℚ) : Option ℚ :=
  if 0 ≤ e ∧ e < 3/10 then some (3/10)
  else if 3/10 ≤ e ∧ e < 7/10 then some (1/10)
  else if 7/10 ≤ e ∧ e < 1 then some 0
  else none

/-- support_rules: the high_volume bucket has max float inf, so it is unbounded above. -/
def supportWeight (t : ℚ) : Option ℚ :=
  if 5 ≤ t then some (3/10)
  else if 2 ≤ t ∧ t < 5 then some (1/10)
  else if 0 ≤ t ∧ t < 2 then some 0
  else none

/-- nps_rules: detractor, passive, promoter; note the gaps at 6, 8 and above 10. -/
def npsWeight (n : ℚ) : Option ℚ :=
  if 0 ≤ n ∧ n < 6 then some (3/10)
  else if 7 ≤ n ∧ n < 8 then some (1/10)
  else if 9 ≤ n ∧ n < 10 then some 0
  else none

/-- The revenue growth branch of _calculate_risk_factors: exactly one key is set. -/
def revenueFactor (rg : ℚ) : String × ℚ :=
  if rg < -(1/10) then ("revenue_decline", 2/5)
  else if rg < 1/20 then ("revenue_stable", 1/10)
  else ("revenue_growth", 0)

/-- Helper: a bucket that matched contributes one dict entry, otherwise none. -/
def optFactor (nm : String) : Option ℚ → List (String × ℚ)
  | some w => [(nm, w)]
  | none => []

/-- The risk_factors dict of the retention _calculate_risk_factors, as an
insertion-ordered association list. -/
def calcRiskFactors (h e st np rg : ℚ) : List (String × ℚ) :=
  optFactor "health_score" (healthScoreWeight h)
  ++ optFactor "engagement" (engagementWeight e)
  ++ optFactor "support_tickets" (supportWeight st)
  ++ optFactor "nps_score" (npsWeight np)
  ++ [revenueFactor rg]

/-- sum(risk_factors.values()). -/
def totalWeight (fs : List (String × ℚ)) : ℚ := (fs.map Prod.snd).sum

/-- _determine_risk_level with the retention thresholds 0.8, 0.6, 0.4, 0.2. -/
def determineRiskLevel (s : ℚ) : String :=
  if s ≥ 4/5 then "Critical"
  else if s ≥ 3/5 then "High"
  else if s ≥ 2/5 then "Medium"
  else if s ≥ 1/5 then "Low"
  else "Very Low"

/-- _calculate_priority: base priority from the score thresholds 0.9, 0.7, 0.5, then a
one-level escalation (Medium to High, Low to Medium) when total_lifetime_revenue
exceeds 100000. No other field of the client is read. -/
def calculatePriority (s : ℚ) (c : CustomerRecord) : String :=
  let base :=
    if s ≥ 9/10 then "Critical"
    else if s ≥ 7/10 then "High"
    else if s ≥ 1/2 then "Medium"
    else "Low"
  if c.total_lifetime_revenue.getD 0 > 100000 then
    (if base = "Medium" then "High" else if base = "Low" then "Medium" else base)
  else base

/-- One entry of the strategies dict built by _initialize_strategies. -/
structure Strategy where
  name : String
  description : String
  actions : List String
  timeline : String
  resources : List String
  expected_outcome : String
deriving DecidableEq

/-- self.strategies lookup; the dict holds exactly five keys. -/
def strategyTable (key : String) : Option Strategy :=
  if key = "immediate_intervention" then some
    ⟨"Immediate Intervention", "Urgent action required to prevent churn",
     ["Schedule executive call within 24 hours", "Offer personalized retention package",
      "Assign dedicated customer success manager", "Provide immediate technical support"],
     "24-48 hours", ["Executive team", "Customer success manager", "Technical support"],
     "Prevent immediate churn"⟩
  else if key = "proactive_outreach" then some
    ⟨"Proactive Outreach", "Proactive engagement to improve client health",
     ["Schedule health check call", "Provide additional training resources",
      "Offer feature adoption consultation", "Create personalized success plan"],
     "1-2 weeks", ["Customer success manager", "Training team"],
     "Improve health score by 20-30%"⟩
  else if key = "engagement_boost" then some
    ⟨"Engagement Boost", "Increase client engagement and feature adoption",
     ["Send personalized feature recommendations", "Schedule product training sessions",
      "Create engagement campaigns", "Provide usage analytics and insights"],
     "2-4 weeks", ["Product team", "Marketing team"],
     "Increase engagement by 40-50%"⟩
  else if key = "support_optimization" then some
    ⟨"Support Optimization", "Address underlying issues causing high support volume",
     ["Conduct support ticket analysis", "Provide proactive issue resolution",
      "Offer additional training on problem areas", "Implement preventive measures"],
     "1-3 weeks", ["Support team", "Technical team"],
     "Reduce support tickets by 50%"⟩
  else if key = "revenue_recovery" then some
    ⟨"Revenue Recovery", "Address declining revenue trends",
     ["Analyze revenue decline causes", "Offer value demonstration sessions",
      "Provide ROI analysis and case studies", "Create retention incentives"],
     "2-4 weeks", ["Sales team", "Customer success manager"],
     "Stabilize or improve revenue trends"⟩
  else none

/-- _get_strategy_for_factor; note that nps_score maps to satisfaction_improvement,
a key that does not exist in the strategies dict. -/
def strategyForFactor (f : String) : String :=
  if f = "health_score" then "proactive_outreach"
  else if f = "engagement" then "engagement_boost"
  else if f = "support_tickets" then "support_optimization"
  else if f = "revenue_decline" then "revenue_recovery"
  else if f = "nps_score" then "satisfaction_improvement"
  else "proactive_outreach"

/-- One entry of the recommendations list of _generate_recommendations: a copy of a
strategy dict, plus the trigger_factor and risk_weight keys, which the general
monitoring fallback does not carry. -/
structure RecEntry where
  name : String
  description : String
  actions : List String
  timeline : String
  resources : List String
  expected_outcome : String
  trigger_factor : Option String
  risk_weight : Option ℚ
deriving DecidableEq

/-- Stable descending insertion by weight, matching sorted with key weight and
reverse true (Python timsort is stable). -/
def insertByWeight (x : String × ℚ) : List (String × ℚ) → List (String × ℚ)
  | [] => [x]
  | y :: ys => if y.2 ≥ x.2 then y :: insertByWeight x ys else x :: y :: ys

def sortByWeight : List (String × ℚ) → List (String × ℚ)
  | [] => []
  | x :: xs => insertByWeight x (sortByWeight xs)

/-- The fallback entry appended when no strategy fired. -/
def generalMonitoring : RecEntry :=
  ⟨"General Monitoring", "Continue monitoring client health and engagement",
   ["Regular health check calls", "Monitor usage patterns"], "Ongoing",
   ["Customer success manager"], "Maintain current health level", none, none⟩

/-- _generate_recommendations: factors sorted by weight descending; a factor fires when
its weight exceeds 0.2 and its mapped strategy key exists in the strategies dict. -/
def generateRecommendations (fs : List (String × ℚ)) (c : CustomerRecord) : List RecEntry :=
  let recs := (sortByWeight fs).filterMap (fun fw =>
    if fw.2 > (1/5 : ℚ) then
      match strategyTable (strategyForFactor fw.1) with
      | some st => some ⟨st.name, st.description, st.actions, st.timeline, st.resources,
          st.expected_outcome, some fw.1, some fw.2⟩
      | none => none
    else none)
  if recs.isEmpty then [generalMonitoring] else recs

/-- The return dict of analyze_client_risk; the try body never raises, since every
extracted field is numeric with a numeric default. -/
structure ClientAnalysis where
  risk_level : String
  composite_risk_score : ℚ
  risk_factors : List (String × ℚ)
  priority : String
  recommendations : List RecEntry
  analysis_timestamp : Option String
  error : Option String
deriving DecidableEq

/-- analyze_client_risk with the retention defaults 65, 0.6, 0, 7, 0. -/
def analyze_client_risk (now : String) (c : CustomerRecord) : ClientAnalysis :=
  let fs := calcRiskFactors (c.current_health_score.getD 65) (c.engagement_score.getD (3/5))
    (c.support_tickets_30d.getD 0) (c.nps_score.getD 7) (c.revenue_growth_90d.getD 0)
  let s := totalWeight fs
  ⟨determineRiskLevel s, s, fs, calculatePriority s c, generateRecommendations fs c,
   some now, none⟩

/-- One result record of process_batch_analysis; it carries the analysis timestamp. -/
structure ClientRow where
  customer_id : String
  name : String
  risk_level : String
  risk_score : ℚ
  priority : String
  health_score : ℚ
  engagement_score : ℚ
  recommendations_count : ℕ
  analysis_timestamp : String
deriving DecidableEq

def processClient (now : String) (idx : ℕ) (c : CustomerRecord) : ClientRow :=
  let a := analyze_client_risk now c
  ⟨c.customer_id.getD ("CUST_" ++ Rules.fmt4 idx),
   c.name.getD ("Client " ++ toString idx),
   a.risk_level, a.composite_risk_score, a.priority,
   c.current_health_score.getD 0, c.engagement_score.getD 0,
   a.recommendations.length, a.analysis_timestamp.getD now⟩

def processBatchAux (now : String) : ℕ → List CustomerRecord → List ClientRow
  | _, [] => []
  | idx, c :: rest => processClient now idx c :: processBatchAux now (idx + 1) rest

def process_batch_analysis (now : String) (l : List CustomerRecord) : List ClientRow :=
  processBatchAux now 0 l

/-- Blank out the analysis_timestamp column, to state time independence of the rest. -/
def ClientRow.eraseTime (r : ClientRow) : ClientRow :=
  ⟨r.customer_id, r.name, r.risk_level, r.risk_score, r.priority, r.health_score,
   r.engagement_score, r.recommendations_count, ""⟩

end Retention

/-- Numeric rank of the documented risk levels, used to state that the risk level is a
monotone function of the composite score. -/
def riskRank (lvl : String) : ℕ :=
  if lvl = "Critical" then 3 else if lvl = "High" then 2 else if lvl = "Medium" then 1 else 0

/-- Replace only the three numeric fields read by the rules scorer, holding every other
field of the record fixed. -/
def setScores (c : CustomerRecord) (h e d : ℚ) : CustomerRecord :=
  ⟨c.customer_id, c.name, some h, c.churn_risk_level, some e, some d, c.segment,
   c.subscription_plan, c.support_tickets_30d, c.nps_score, c.revenue_growth_90d,
   c.total_lifetime_revenue⟩

/-- Record C3 of the spec scenarios: only customer_id is present. -/
def recordC3 : CustomerRecord :=
  ⟨some "C3", none, none, none, none, none, none, none, none, none, none, none⟩

/-- Adversarial client for the retention engine: every one of the five factors takes
its largest weight (0.4 + 0.3 + 0.3 + 0.3 + 0.4 = 1.7). -/
def worstClient : CustomerRecord :=
  ⟨some "W1", none, some 20, none, some (1/10), none, none, none, some 10, some 3,
   some (-(1/2)), none⟩

/-- Rules-engine record with health 20 and otherwise fixed in-range fields. -/
def monoBase : CustomerRecord :=
  ⟨some "M1", none, some 20, some (FieldVal.str "Low"), some (1/2), some 10, none, none,
   none, none, none, none⟩

/-- The same record with health_score decreased to the adversarial value -1000. -/
def monoLower : CustomerRecord :=
  ⟨some "M1", none, some (-1000), some (FieldVal.str "Low"), some (1/2), some 10, none,
   none, none, none, none, none⟩

/-- Retention client with composite score 0.4 (risk level Medium) and lifetime revenue
150000: factors health 0.2, engagement 0.1, support 0.1, nps 0.0, revenue growth 0.0. -/
def mediumRiskHighValue : CustomerRecord :=
  ⟨some "P1", none, some 55, none, some (1/2), none, none, none, some 2, some 9,
   some (1/5), some 150000⟩

/-- The same factor profile with segment Enterprise and no lifetime revenue. -/
def enterpriseClient : CustomerRecord :=
  ⟨some "P2", none, some 55, none, some (1/2), none, some "Enterprise", none, some 2,
   some 9, some (1/5), none⟩

/-- A record whose churn cell holds the number 5, so scoring it raises internally. -/
def badChurnRecord : CustomerRecord :=
  ⟨some "B1", none, some 20, some (FieldVal.num 5), some (1/10), some 90, none, none,
   none, none, none, none⟩

/-- A well-formed record used alongside badChurnRecord in batch witnesses. -/
def goodRecord : CustomerRecord :=
  ⟨some "G1", none, some 80, some (FieldVal.str "Low"), some (4/5), some 5, none, none,
   none, none, none, none⟩

theorem lowerStr_Low : lowerStr "Low" = "low" := by decide

theorem lowerStr_Medium : lowerStr "Medium" = "medium" := by decide

theorem lowerStr_High : lowerStr "High" = "high" := by decide

namespace Rules

theorem healthScoreWeight_bounds (h : ℚ) :
    0 ≤ (healthScoreWeight h).getD 0 ∧ (healthScoreWeight h).getD 0 ≤ 3/10 := by
  unfold healthScoreWeight
  split_ifs <;> norm_num

theorem engagementWeight_bounds (e : ℚ) :
    0 ≤ (engagementWeight e).getD 0 ∧ (engagementWeight e).getD 0 ≤ 1/5 := by
  unfold engagementWeight
  split_ifs <;> norm_num

theorem churnRiskWeight_bounds (s : String) :
    0 ≤ churnRiskWeight s ∧ churnRiskWeight s ≤ 2/5 := by
  unfold churnRiskWeight
  split_ifs <;> norm_num

theorem daysWeight_bounds (d : ℚ) : 0 ≤ daysWeight d ∧ daysWeight d ≤ 1/10 := by
  unfold daysWeight
  split_ifs <;> norm_num

/-- On the nonnegative half-line the health bucket weight collapses to a simple
threshold chain (values at or above 100 match no bucket and contribute 0, the same
value as the high bucket). -/
theorem healthScoreWeight_eq (h : ℚ) (h0 : 0 ≤ h) :
    (healthScoreWeight h).getD 0 =
      if h < 30 then 3/10 else if h < 50 then 1/5 else if h < 70 then 1/10 else 0 := by
  unfold healthScoreWeight
  split_ifs <;>
    simp only [Option.getD_some, Option.getD_none, not_and_or, not_le, not_lt] at * <;>
    casesm* _ ∧ _, _ ∨ _ <;>
    linarith

theorem engagementWeight_eq (e : ℚ) (h0 : 0 ≤ e) :
    (engagementWeight e).getD 0 =
      if e < 3/10 then 1/5 else if e < 7/10 then 1/10 else 0 := by
  unfold engagementWeight
  split_ifs <;>
    simp only [Option.getD_some, Option.getD_none, not_and_or, not_le, not_lt] at * <;>
    casesm* _ ∧ _, _ ∨ _ <;>
    linarith

/-- The three-step threshold chain of the health buckets is antitone. -/
theorem healthChain_anti (x y : ℚ) (hxy : x ≤ y) :
    (if y < 30 then (3:ℚ)/10 else if y < 50 then 1/5 else if y < 70 then 1/10 else 0) ≤
      (if x < 30 then (3:ℚ)/10 else if x < 50 then 1/5 else if x < 70 then 1/10 else 0) := by
  split_ifs <;> norm_num <;> linarith

theorem engChain_anti (x y : ℚ) (hxy : x ≤ y) :
    (if y < 3/10 then (1:ℚ)/5 else if y < 7/10 then 1/10 else 0) ≤
      (if x < 3/10 then (1:ℚ)/5 else if x < 7/10 then 1/10 else 0) := by
  split_ifs <;> norm_num <;> linarith

theorem daysWeight_mono (x y : ℚ) (hxy : x ≤ y) : daysWeight x ≤ daysWeight y := by
  unfold daysWeight
  split_ifs <;> norm_num <;> linarith

theorem processBatchAux_length (now : String) (idx : ℕ) (l : List CustomerRecord) :
    (processBatchAux now idx l).length = l.length := by
  induction l generalizing idx with
  | nil => rfl
  | cons c rest ih => simp [processBatchAux, ih]

theorem processBatchAux_get (now : String) (l : List CustomerRecord) (idx i : ℕ) :
    (processBatchAux now idx l)[i]? = (l[i]?).map (processCustomer now (idx + i)) := by
  induction l generalizing idx i with
  | nil => simp [processBatchAux]
  | cons c rest ih =>
    cases i with
    | zero => simp [processBatchAux]
    | succ j =>
      simp only [processBatchAux, List.getElem?_cons_succ, ih]
      have : idx + (j + 1) = idx + 1 + j := by omega
      rw [this]

theorem process_customer_batch_get (now : String) (l : List CustomerRecord) (i : ℕ) :
    (process_customer_batch now l)[i]? = (l[i]?).map (processCustomer now i) := by
  have := processBatchAux_get now l 0 i
  simpa [process_customer_batch] using this

end Rules

namespace Retention

theorem totalWeight_append (a b : List (String × ℚ)) :
    totalWeight (a ++ b) = totalWeight a + totalWeight b := by
  simp [totalWeight]

theorem totalWeight_optFactor (nm : String) (o : Option ℚ) :
    totalWeight (optFactor nm o) = o.getD 0 := by
  cases o <;> simp [optFactor, totalWeight]

theorem retentionHealthWeight_bounds (h : ℚ) :
    0 ≤ (healthScoreWeight h).getD 0 ∧ (healthScoreWeight h).getD 0 ≤ 2/5 := by
  unfold healthScoreWeight
  split_ifs <;> norm_num

theorem retentionEngagementWeight_bounds (e : ℚ) :
    0 ≤ (engagementWeight e).getD 0 ∧ (engagementWeight e).getD 0 ≤ 3/10 := by
  unfold engagementWeight
  split_ifs <;> norm_num

theorem supportWeight_bounds (t : ℚ) :
    0 ≤ (supportWeight t).getD 0 ∧ (supportWeight t).getD 0 ≤ 3/10 := by
  unfold supportWeight
  split_ifs <;> norm_num

theorem npsWeight_bounds (n : ℚ) :
    0 ≤ (npsWeight n).getD 0 ∧ (npsWeight n).getD 0 ≤ 3/10 := by
  unfold npsWeight
  split_ifs <;> norm_num

theorem revenueFactor_bounds (rg : ℚ) :
    0 ≤ (revenueFactor rg).2 ∧ (revenueFactor rg).2 ≤ 2/5 := by
  unfold revenueFactor
  split_ifs <;> norm_num

/-- Every strategy stored in the strategies dict has a non-empty action list. -/
theorem strategyTable_actions (key : String) (st : Strategy)
    (h : strategyTable key = some st) : st.actions ≠ [] := by
  unfold strategyTable at h
  split_ifs at h <;> simp_all <;> subst h <;> simp

end Retention

theorem Retention.totalWeight_single (p : String × ℚ) : Retention.totalWeight [p] = p.2 := by
  simp [Retention.totalWeight]

theorem Retention.totalWeight_calc (h e st np rg : ℚ) :
    Retention.totalWeight (Retention.calcRiskFactors h e st np rg) =
      (Retention.healthScoreWeight h).getD 0 + (Retention.engagementWeight e).getD 0 +
        (Retention.supportWeight st).getD 0 + (Retention.npsWeight np).getD 0 +
        (Retention.revenueFactor rg).2 := by
  simp only [Retention.calcRiskFactors, Retention.totalWeight_append,
    Retention.totalWeight_optFactor, Retention.totalWeight_single]

/-- C1 (amended): the rules engine composite score lies in [0,1] for every record,
including adversarial out-of-range inputs, although no explicit clamp is applied (an
out-of-range value matches no bucket and its key is simply absent, and the bucket
weights cannot sum above 1.0); the retention engine applies no cap either, and its
composite score ranges over [0, 1.7], exceeding 1 on adversarial inputs. -/
theorem c1_composite_score_bounds (now : String) (c : CustomerRecord) :
    0 ≤ (Rules.analyze_customer_risk now c).composite_risk_score ∧
      (Rules.analyze_customer_risk now c).composite_risk_score ≤ 1 ∧
      0 ≤ (Retention.analyze_client_risk now c).composite_risk_score ∧
      (Retention.analyze_client_risk now c).composite_risk_score ≤ 17/10 := by
  have hr : 0 ≤ (Rules.analyze_customer_risk now c).composite_risk_score ∧
      (Rules.analyze_customer_risk now c).composite_risk_score ≤ 1 := by
    cases hc : Rules.churnFails c with
    | true => simp [Rules.analyze_customer_risk, hc]
    | false =>
      simp only [Rules.analyze_customer_risk, hc, Bool.false_eq_true, if_false]
      obtain ⟨a1, a2⟩ := Rules.healthScoreWeight_bounds (c.current_health_score.getD 50)
      obtain ⟨b1, b2⟩ := Rules.engagementWeight_bounds (c.engagement_score.getD (1/2))
      obtain ⟨k1, k2⟩ := Rules.churnRiskWeight_bounds (Rules.churnString c)
      obtain ⟨d1, d2⟩ := Rules.daysWeight_bounds (c.days_since_last_engagement.getD 30)
      constructor <;>
        simp only [Rules.calcRiskFactors, Rules.RiskFactors.total] <;> linarith
  have hq : 0 ≤ (Retention.analyze_client_risk now c).composite_risk_score ∧
      (Retention.analyze_client_risk now c).composite_risk_score ≤ 17/10 := by
    simp only [Retention.analyze_client_risk, Retention.totalWeight_calc]
    obtain ⟨a1, a2⟩ := Retention.retentionHealthWeight_bounds (c.current_health_score.getD 65)
    obtain ⟨b1, b2⟩ := Retention.retentionEngagementWeight_bounds (c.engagement_score.getD (3/5))
    obtain ⟨s1, s2⟩ := Retention.supportWeight_bounds (c.support_tickets_30d.getD 0)
    obtain ⟨n1, n2⟩ := Retention.npsWeight_bounds (c.nps_score.getD 7)
    obtain ⟨r1, r2⟩ := Retention.revenueFactor_bounds (c.revenue_growth_90d.getD 0)
    constructor <;> linarith
  exact ⟨hr.1, hr.2, hq.1, hq.2⟩

/-- C1 (counterexample): on worstClient every retention factor takes its largest
weight and the returned composite score is 1.7, outside [0,1] and never clamped. -/
theorem c1_retention_score_above_one :
    (Retention.analyze_client_risk "t" worstClient).composite_risk_score = 17/10 ∧
      ¬ (Retention.analyze_client_risk "t" worstClient).composite_risk_score ≤ 1 := by
  norm_num [Retention.analyze_client_risk, worstClient, Retention.calcRiskFactors,
    Retention.totalWeight, Retention.healthScoreWeight, Retention.engagementWeight,
    Retention.supportWeight, Retention.npsWeight, Retention.revenueFactor,
    Retention.optFactor]

/-- C2 (counterexample): monoBase and monoLower differ only in health_score (20
versus -1000); decreasing it below the documented domain drops the health bucket
weight from 0.3 to nothing, so the composite score falls from 0.4 to 0.1 instead of
never decreasing, and no clamping to the documented domain takes place. -/
theorem c2_health_decrease_lowers_score :
    (Rules.analyze_customer_risk "t" monoBase).composite_risk_score = 2/5 ∧
      (Rules.analyze_customer_risk "t" monoLower).composite_risk_score = 1/10 ∧
      (Rules.analyze_customer_risk "t" monoLower).composite_risk_score <
        (Rules.analyze_customer_risk "t" monoBase).composite_risk_score := by
  norm_num +decide [Rules.analyze_customer_risk, Rules.churnFails, Rules.churnString, monoBase,
    monoLower, Rules.calcRiskFactors, Rules.RiskFactors.total, Rules.healthScoreWeight,
    Rules.engagementWeight, Rules.churnRiskWeight, Rules.daysWeight, lowerStr_Low]

/-- C2 (amended): on the documented domains (health_score and engagement_score
nonnegative) decreasing health_score, decreasing engagement_score or increasing
days_since_last_engagement, holding every other field fixed, never decreases the
composite score, and scoring raises no error for any numeric value; but out-of-range
values are not clamped: a value outside every bucket contributes no weight at all,
which is why monotonicity fails below zero. -/
theorem c2_monotone_on_domain (now : String) (c : CustomerRecord) (h₁ h₂ e₁ e₂ d₁ d₂ : ℚ)
    (hcf : Rules.churnFails c = false) (hh0 : 0 ≤ h₂) (hh : h₂ ≤ h₁)
    (he0 : 0 ≤ e₂) (he : e₂ ≤ e₁) (hd : d₁ ≤ d₂) :
    (Rules.analyze_customer_risk now (setScores c h₁ e₁ d₁)).composite_risk_score ≤
        (Rules.analyze_customer_risk now (setScores c h₂ e₂ d₂)).composite_risk_score ∧
      (Rules.analyze_customer_risk now (setScores c h₁ e₁ d₁)).error = none := by
  have hcf1 : Rules.churnFails (setScores c h₁ e₁ d₁) = false := hcf
  have hcf2 : Rules.churnFails (setScores c h₂ e₂ d₂) = false := hcf
  constructor
  · have hcw : Rules.churnRiskWeight (Rules.churnString (setScores c h₂ e₂ d₂)) =
        Rules.churnRiskWeight (Rules.churnString (setScores c h₁ e₁ d₁)) := rfl
    simp only [Rules.analyze_customer_risk, hcf1, hcf2, Bool.false_eq_true, if_false,
      Rules.calcRiskFactors, Rules.RiskFactors.total, hcw]
    generalize Rules.churnRiskWeight (Rules.churnString (setScores c h₁ e₁ d₁)) = w
    simp only [setScores, Option.getD_some]
    rw [Rules.healthScoreWeight_eq h₁ (le_trans hh0 hh), Rules.healthScoreWeight_eq h₂ hh0,
      Rules.engagementWeight_eq e₁ (le_trans he0 he), Rules.engagementWeight_eq e₂ he0]
    have g1 := Rules.healthChain_anti h₂ h₁ hh
    have g2 := Rules.engChain_anti e₂ e₁ he
    have g3 := Rules.daysWeight_mono d₁ d₂ hd
    linarith
  · simp [Rules.analyze_customer_risk, hcf1]

theorem c2_monotone_on_domain_witness :
    (Rules.analyze_customer_risk "x" (setScores goodRecord 60 (4/5) 0)).composite_risk_score ≤
        (Rules.analyze_customer_risk "x" (setScores goodRecord 10 (1/10) 90)).composite_risk_score ∧
      (Rules.analyze_customer_risk "x" (setScores goodRecord 60 (4/5) 0)).error = none :=
  c2_monotone_on_domain "x" goodRecord 60 10 (4/5) (1/10) 0 90 rfl (by norm_num)
    (by norm_num) (by norm_num) (by norm_num) (by norm_num)

/-- C3 (counterexample): on the all-defaults record the composite score is 0.45, not
the 0.4 the claim states, because the default of 30 days falls in the [30,60) bucket
and contributes 0.05 rather than 0.0. -/
theorem c3_default_score_not_04 :
    (Rules.analyze_customer_risk "t" recordC3).composite_risk_score = 9/20 ∧
      (Rules.analyze_customer_risk "t" recordC3).composite_risk_score ≠ 2/5 := by
  norm_num +decide [Rules.analyze_customer_risk, Rules.churnFails, Rules.churnString, recordC3,
    Rules.calcRiskFactors, Rules.RiskFactors.total, Rules.healthScoreWeight,
    Rules.engagementWeight, Rules.churnRiskWeight, Rules.daysWeight, lowerStr_Medium]

/-- C3 (amended): on the record with only customer_id present the documented defaults
apply (health 50, engagement 0.5, churn Medium, days 30) and scoring returns composite
score exactly 0.45 (0.1 health + 0.1 engagement + 0.2 churn + 0.05 days, since the
default 30 days lies in the [30,60) bucket), risk level Medium and confidence Low. -/
theorem c3_default_record_result (now : String) :
    Rules.analyze_customer_risk now recordC3 =
      ⟨"Medium", 9/20, some ⟨some (1/10), some (1/10), 1/5, 1/20⟩, "Low", some now, none⟩ := by
  norm_num +decide [Rules.analyze_customer_risk, Rules.churnFails, Rules.churnString, recordC3,
    Rules.calcRiskFactors, Rules.RiskFactors.total, Rules.healthScoreWeight,
    Rules.engagementWeight, Rules.churnRiskWeight, Rules.daysWeight, lowerStr_Medium,
    Rules.determineRiskLevel, Rules.calcConfidence]

/-- C4 (confirmed): the rules engine derives the risk level from the composite score by
the documented thresholds: Critical iff score ≥ 0.7, High iff 0.5 ≤ score < 0.7, Medium
iff 0.3 ≤ score < 0.5, Low iff score < 0.3; the level is a deterministic, monotonically
non-decreasing function of the composite score, and every successfully scored record
carries the risk level computed from its own composite score by that function. -/
theorem c4_risk_level_thresholds (s t : ℚ) (now : String) (c : CustomerRecord) :
    ((Rules.determineRiskLevel s = "Critical") ↔ 7/10 ≤ s) ∧
      ((Rules.determineRiskLevel s = "High") ↔ 1/2 ≤ s ∧ s < 7/10) ∧
      ((Rules.determineRiskLevel s = "Medium") ↔ 3/10 ≤ s ∧ s < 1/2) ∧
      ((Rules.determineRiskLevel s = "Low") ↔ s < 3/10) ∧
      (s ≤ t → riskRank (Rules.determineRiskLevel s) ≤ riskRank (Rules.determineRiskLevel t)) ∧
      (Rules.churnFails c = false →
        (Rules.analyze_customer_risk now c).risk_level =
          Rules.determineRiskLevel (Rules.analyze_customer_risk now c).composite_risk_score) := by
  refine ⟨?_, ?_, ?_, ?_, ?_, ?_⟩
  · unfold Rules.determineRiskLevel
    split_ifs <;> simp +decide <;>
      first
        | (rintro ⟨u, v⟩ ; linarith)
        | (constructor <;> linarith)
        | (intro u ; linarith)
        | linarith
  · unfold Rules.determineRiskLevel
    split_ifs <;> simp +decide <;>
      first
        | (rintro ⟨u, v⟩ ; linarith)
        | (constructor <;> linarith)
        | (intro u ; linarith)
        | linarith
  · unfold Rules.determineRiskLevel
    split_ifs <;> simp +decide <;>
      first
        | (rintro ⟨u, v⟩ ; linarith)
        | (constructor <;> linarith)
        | (intro u ; linarith)
        | linarith
  · unfold Rules.determineRiskLevel
    split_ifs <;> simp +decide <;>
      first
        | (rintro ⟨u, v⟩ ; linarith)
        | (constructor <;> linarith)
        | (intro u ; linarith)
        | linarith
  · intro hst
    unfold Rules.determineRiskLevel
    split_ifs <;> simp +decide [riskRank] <;> linarith
  · intro hx
    simp [Rules.analyze_customer_risk, hx]

theorem c4_risk_level_thresholds_witness :
    ((Rules.determineRiskLevel (3/5) = "High") ↔ 1/2 ≤ (3:ℚ)/5 ∧ (3:ℚ)/5 < 7/10) ∧
      riskRank (Rules.determineRiskLevel (3/5)) ≤ riskRank (Rules.determineRiskLevel (4/5)) ∧
      (Rules.analyze_customer_risk "x" goodRecord).risk_level =
        Rules.determineRiskLevel
          (Rules.analyze_customer_risk "x" goodRecord).composite_risk_score :=
  ⟨(c4_risk_level_thresholds (3/5) (4/5) "x" goodRecord).2.1,
   (c4_risk_level_thresholds (3/5) (4/5) "x" goodRecord).2.2.2.2.1 (by norm_num),
   (c4_risk_level_thresholds (3/5) (4/5) "x" goodRecord).2.2.2.2.2 rfl⟩

/-- C5 (counterexample): on the empty batch the summary returned by
get_decision_summary is the error dict with message No results to summarize, not a
BatchSummary with total_count 0 and a single no-data insight. -/
theorem c5_empty_summary_is_error :
    Rules.get_decision_summary (Rules.process_customer_batch "t" []) =
      Rules.SummaryResult.err "No results to summarize" := rfl

/-- C5 (amended): processing an empty sequence of records returns an empty result
sequence and raises no exception, but the summary of an empty result set is the error
value {error: No results to summarize} — the empty batch IS treated as an error by
get_decision_summary rather than yielding a total_count = 0 summary with a no-data
insight. -/
theorem c5_empty_batch (now : String) :
    Rules.process_customer_batch now [] = [] ∧
      Rules.get_decision_summary [] = Rules.SummaryResult.err "No results to summarize" :=
  ⟨rfl, rfl⟩

/-- C6 (counterexample): a record whose churn cell holds a number fails scoring
internally, yet the batch output still contains one row for it with risk level
Unknown — the record is not skipped — and the insights of the resulting summary
contain no skip count (only the generic health message fires on this batch). -/
theorem c6_failing_record_not_skipped :
    (Rules.process_customer_batch "t" [badChurnRecord]).map Rules.BatchRow.risk_level
        = ["Unknown"] ∧
      (Rules.get_decision_summary
          (Rules.process_customer_batch "t" [badChurnRecord])).insightsOf
        = ["Customer health is generally good - focus on growth and expansion"] := by
  constructor
  · decide
  · norm_num +decide [Rules.get_decision_summary, Rules.process_customer_batch,
      Rules.processBatchAux, Rules.processCustomer, Rules.analyze_customer_risk,
      Rules.churnFails, badChurnRecord, Rules.generate_recommendations,
      Rules.generateInsights, Rules.highRiskCount, Rules.countPriority,
      Rules.meanRiskScore, Rules.determinePriority, Rules.SummaryResult.insightsOf,
      List.filter, Rules.countRisk]

/-- C6 (amended): a failure scoring one record never aborts the batch, but the record
is not skipped either: analyze_customer_risk catches the exception internally and
returns an Unknown-level result, so the batch output always holds exactly one row per
input record, in order, and no skip count is ever surfaced in the insights. -/
theorem c6_batch_never_skips (now : String) (l : List CustomerRecord) (i : ℕ)
    (c : CustomerRecord) (hc : l[i]? = some c) :
    (Rules.process_customer_batch now l).length = l.length ∧
      (Rules.process_customer_batch now l)[i]? = some (Rules.processCustomer now i c) := by
  refine ⟨Rules.processBatchAux_length now 0 l, ?_⟩
  simp [Rules.process_customer_batch_get, hc]

theorem c6_batch_never_skips_witness :
    (Rules.process_customer_batch "x" [goodRecord, badChurnRecord]).length =
        [goodRecord, badChurnRecord].length ∧
      (Rules.process_customer_batch "x" [goodRecord, badChurnRecord])[1]? =
        some (Rules.processCustomer "x" 1 badChurnRecord) :=
  c6_batch_never_skips "x" [goodRecord, badChurnRecord] 1 badChurnRecord rfl

/-- C7 (counterexample): the retention engine never escalates on segment, and its
revenue escalation starts from a score-derived base priority, not from the risk level:
mediumRiskHighValue has risk level Medium and lifetime revenue 150000 yet gets priority
Medium (base Low escalated one level), not High; enterpriseClient has segment
Enterprise and risk level Medium yet keeps priority Low. -/
theorem c7_no_segment_escalation :
    (Retention.analyze_client_risk "t" mediumRiskHighValue).risk_level = "Medium" ∧
      mediumRiskHighValue.total_lifetime_revenue = some 150000 ∧
      (Retention.analyze_client_risk "t" mediumRiskHighValue).priority = "Medium" ∧
      (Retention.analyze_client_risk "t" mediumRiskHighValue).priority ≠ "High" ∧
      enterpriseClient.segment = some "Enterprise" ∧
      (Retention.analyze_client_risk "t" enterpriseClient).priority = "Low" := by
  refine ⟨?_, rfl, ?_, ?_, rfl, ?_⟩ <;>
    norm_num +decide [Retention.analyze_client_risk, mediumRiskHighValue, enterpriseClient,
      Retention.calcRiskFactors, Retention.totalWeight, Retention.healthScoreWeight,
      Retention.engagementWeight, Retention.supportWeight, Retention.npsWeight,
      Retention.revenueFactor, Retention.optFactor, Retention.determineRiskLevel,
      Retention.calculatePriority]

/-- C7 (amended): only the retention engine refines priority, and only on revenue: the
base priority is derived from the composite score (≥0.9 Critical, ≥0.7 High, ≥0.5
Medium, else Low) and escalated exactly one level (Medium to High, Low to Medium) when
total_lifetime_revenue exceeds 100000; no other field (in particular segment) plays any
role, High and Critical are never escalated, and the rules engine priority is a
function of risk_level alone with no revenue or segment override. A record with
lifetime revenue 150000 receives priority High exactly when its composite score lies in
[0.5, 0.7). -/
theorem c7_priority_escalation_rules (s : ℚ) (c c₂ : CustomerRecord) (lvl : String)
    (sc sc₂ : ℚ) :
    (c.total_lifetime_revenue = c₂.total_lifetime_revenue →
        Retention.calculatePriority s c = Retention.calculatePriority s c₂) ∧
      (100000 < c.total_lifetime_revenue.getD 0 → 1/2 ≤ s → s < 7/10 →
        Retention.calculatePriority s c = "High") ∧
      (100000 < c.total_lifetime_revenue.getD 0 → s < 1/2 →
        Retention.calculatePriority s c = "Medium") ∧
      (7/10 ≤ s → s < 9/10 → Retention.calculatePriority s c = "High") ∧
      Rules.determinePriority lvl sc = Rules.determinePriority lvl sc₂ := by
  refine ⟨?_, ?_, ?_, ?_, rfl⟩
  · intro hrev
    unfold Retention.calculatePriority
    rw [hrev]
  · intro hv h1 h2
    have b1 : ¬ (s ≥ 9/10) := by linarith
    have b2 : ¬ (s ≥ 7/10) := by linarith
    have b3 : s ≥ 1/2 := h1
    simp +decide [Retention.calculatePriority, b1, b2, b3, hv]
    intro hy
    linarith
  · intro hv h1
    have b1 : ¬ (s ≥ 9/10) := by linarith
    have b2 : ¬ (s ≥ 7/10) := by linarith
    have b3 : ¬ (s ≥ 1/2) := by linarith
    simp +decide [Retention.calculatePriority, b1, b2, b3, hv]
    split_ifs <;> first | rfl | linarith
  · intro h1 h2
    have b1 : ¬ (s ≥ 9/10) := by linarith
    have b2 : s ≥ 7/10 := h1
    by_cases hv : 100000 < c.total_lifetime_revenue.getD 0 <;>
      simp +decide [Retention.calculatePriority, b1, b2, hv]

theorem c7_priority_escalation_rules_witness :
    Retention.calculatePriority (11/20) mediumRiskHighValue = "High" ∧
      Rules.determinePriority "Medium" 0 = Rules.determinePriority "Medium" 1 :=
  ⟨(c7_priority_escalation_rules (11/20) mediumRiskHighValue mediumRiskHighValue
        "Medium" 0 1).2.1
      (by norm_num [mediumRiskHighValue]) (by norm_num) (by norm_num),
   (c7_priority_escalation_rules (11/20) mediumRiskHighValue mediumRiskHighValue
      "Medium" 0 1).2.2.2.2⟩

/-- C8 (confirmed): for every possible risk level the rules engine recommendation has
a non-empty action list (every branch of the risk-based table is non-empty, and the
customer-specific extras only append), and the retention engine recommendation list is
never empty — when no factor exceeds weight 0.2 (in particular when the factor list is
empty or all weights are zero) the general monitoring fallback fires — and every entry
of it carries a non-empty action list. -/
theorem c8_recommendations_nonempty (ra : Rules.RiskAnalysis) (c : CustomerRecord)
    (fs : List (String × ℚ)) (cl : CustomerRecord) :
    (Rules.generate_recommendations ra c).recommended_actions ≠ [] ∧
      Retention.generateRecommendations fs cl ≠ [] ∧
      ((Retention.generateRecommendations fs cl).all fun r => !r.actions.isEmpty) = true := by
  have hbase : ∀ lvl sc, (Rules.getRiskBasedRecommendations lvl sc).recommended_actions ≠ [] := by
    intro lvl sc
    unfold Rules.getRiskBasedRecommendations
    split_ifs <;> simp
  have hmem : ∀ x ∈ Retention.generateRecommendations fs cl, x.actions ≠ [] := by
    intro x hx
    simp only [Retention.generateRecommendations] at hx
    split at hx
    · simp only [List.mem_singleton] at hx
      subst hx
      simp [Retention.generalMonitoring]
    · rw [List.mem_filterMap] at hx
      obtain ⟨a, ha, hfa⟩ := hx
      split at hfa
      · split at hfa
        · rw [Option.some.injEq] at hfa
          subst hfa
          exact Retention.strategyTable_actions _ _ (by assumption)
        · simp at hfa
      · simp at hfa
  refine ⟨?_, ?_, ?_⟩
  · simp only [Rules.generate_recommendations]
    intro h
    rcases List.append_eq_nil.mp h with ⟨h1, h2⟩
    exact hbase ra.risk_level ra.composite_risk_score h1
  · simp only [Retention.generateRecommendations]
    split_ifs with he
    · simp
    · intro h
      rw [h] at he
      simp at he
  · rw [List.all_eq_true]
    intro x hx
    have hne := hmem x hx
    cases hv : x.actions.isEmpty
    · rfl
    · exact absurd (List.isEmpty_iff.mp hv) hne

/-- C9 (confirmed): scoring and selection are pure functions of the record and the
configured tables, so repeated calls on a fixed record agree; the only wall-clock value
anywhere is the analysis_timestamp field, which plays no part in the scoring math: with
that field erased, single-record analysis, recommendation generation and both engines'
batch outputs are the same function of the input records regardless of the clock (the
rules batch rows carry no timestamp at all). -/
theorem c9_deterministic_modulo_timestamp (now₁ now₂ : String) (c : CustomerRecord)
    (l : List CustomerRecord) :
    (Rules.analyze_customer_risk now₁ c).eraseTime =
        (Rules.analyze_customer_risk now₂ c).eraseTime ∧
      Rules.generate_recommendations (Rules.analyze_customer_risk now₁ c) c =
        Rules.generate_recommendations (Rules.analyze_customer_risk now₂ c) c ∧
      Rules.process_customer_batch now₁ l = Rules.process_customer_batch now₂ l ∧
      (Retention.process_batch_analysis now₁ l).map Retention.ClientRow.eraseTime =
        (Retention.process_batch_analysis now₂ l).map Retention.ClientRow.eraseTime := by
  refine ⟨?_, ?_, ?_, ?_⟩
  · cases hc : Rules.churnFails c <;>
      simp [Rules.analyze_customer_risk, hc, Rules.RiskAnalysis.eraseTime]
  · cases hc : Rules.churnFails c <;>
      simp [Rules.analyze_customer_risk, hc, Rules.generate_recommendations]
  · have haux : ∀ idx m, Rules.processBatchAux now₁ idx m = Rules.processBatchAux now₂ idx m := by
      intro idx m
      induction m generalizing idx with
      | nil => rfl
      | cons x xs ih =>
        have hrow : Rules.processCustomer now₁ idx x = Rules.processCustomer now₂ idx x := by
          cases hc : Rules.churnFails x <;>
            simp [Rules.processCustomer, Rules.analyze_customer_risk, hc,
              Rules.generate_recommendations]
        simp [Rules.processBatchAux, hrow, ih]
    exact haux 0 l
  · have haux : ∀ idx m,
        (Retention.processBatchAux now₁ idx m).map Retention.ClientRow.eraseTime =
          (Retention.processBatchAux now₂ idx m).map Retention.ClientRow.eraseTime := by
      intro idx m
      induction m generalizing idx with
      | nil => rfl
      | cons x xs ih =>
        have hrow : (Retention.processClient now₁ idx x).eraseTime =
            (Retention.processClient now₂ idx x).eraseTime := rfl
        simp only [Retention.processBatchAux, List.map_cons, hrow, ih]
    exact haux 0 l

/-- C10 (confirmed): scoring never raises: on a record whose churn cell holds a number
(no .lower() support) the internal exception is caught and the result carries risk
level Unknown — outside the documented Low/Medium/High/Critical enum — composite score
0.0, an empty factor dict, confidence Low and an error message; the batch row built for
such a record carries risk level Unknown and the record stays in the batch output,
counted under Unknown by the summary risk distribution. -/
theorem c10_internal_error_yields_unknown (now : String) (idx : ℕ) (c : CustomerRecord)
    (q : ℚ) (l : List CustomerRecord) (i : ℕ)
    (hq : c.churn_risk_level = some (FieldVal.num q)) :
    Rules.analyze_customer_risk now c =
        ⟨"Unknown", 0, none, "Low", none, some Rules.lowerAttrMsg⟩ ∧
      (Rules.processCustomer now idx c).risk_level = "Unknown" ∧
      (l[i]? = some c →
        1 ≤ Rules.countRisk (Rules.process_customer_batch now l) "Unknown") := by
  have hcf : Rules.churnFails c = true := by
    simp [Rules.churnFails, hq]
  have h1 : Rules.analyze_customer_risk now c =
      ⟨"Unknown", 0, none, "Low", none, some Rules.lowerAttrMsg⟩ := by
    simp [Rules.analyze_customer_risk, hcf]
  refine ⟨h1, ?_, ?_⟩
  · simp [Rules.processCustomer, h1]
  · intro hi
    have hrow : (Rules.process_customer_batch now l)[i]? =
        some (Rules.processCustomer now i c) := by
      simp [Rules.process_customer_batch_get, hi]
    have hmem : Rules.processCustomer now i c ∈ Rules.process_customer_batch now l := by
      rcases List.getElem?_eq_some.mp hrow with ⟨hlt, hget⟩
      exact hget ▸ List.getElem_mem hlt
    have hlvl : (Rules.processCustomer now i c).risk_level = "Unknown" := by
      simp [Rules.processCustomer, h1]
    have hfil : Rules.processCustomer now i c ∈
        (Rules.process_customer_batch now l).filter (fun r => r.risk_level == "Unknown") := by
      rw [List.mem_filter]
      exact ⟨hmem, by simp [hlvl]⟩
    have hpos := List.length_pos.mpr (List.ne_nil_of_mem hfil)
    unfold Rules.countRisk
    omega

theorem c10_internal_error_yields_unknown_witness :
    Rules.analyze_customer_risk "x" badChurnRecord =
        ⟨"Unknown", 0, none, "Low", none, some Rules.lowerAttrMsg⟩ ∧
      (Rules.processCustomer "x" 1 badChurnRecord).risk_level = "Unknown" ∧
      1 ≤ Rules.countRisk (Rules.process_customer_batch "x" [goodRecord, badChurnRecord])
        "Unknown" :=
  ⟨(c10_internal_error_yields_unknown "x" 1 badChurnRecord 5 [goodRecord, badChurnRecord]
      1 rfl).1,
   (c10_internal_error_yields_unknown "x" 1 badChurnRecord 5 [goodRecord, badChurnRecord]
      1 rfl).2.1,
   (c10_internal_error_yields_unknown "x" 1 badChurnRecord 5 [goodRecord, badChurnRecord]
      1 rfl).2.2 rfl⟩
